import Mathlib

/-!
Shallow embedding of the stream supervision and fan-out engine of StageView
(`src/src-tauri/src/lib.rs`), covering the fMP4 box parser
(`process_fmp4_stream`), the fragment classifier (`is_keyframe_fragment`,
`count_samples_in_moof`), the late-joiner caches, the supervisor backoff and
error-event logic (`stream_camera`, `try_stream_camera`, `calculate_backoff`),
and the HTTP streaming handler's operation order (`run_api_server`).

Byte slices (`&[u8]`) are modelled as `List Nat`; every read goes through
`byteAt`, which truncates to a byte value, so list entries behave as `u8`.
The Rust `while` loops walk box offsets that strictly increase by at least 8
per iteration (each loop first checks `size < 8` and breaks otherwise), so
each loop is translated as structural recursion on a fuel argument that the
wrapper instantiates with the slice length, which strictly dominates the
possible iteration count; the translated functions therefore compute exactly
what the source loops compute, and stay kernel-evaluable.
-/

namespace StageView

/-- Read one byte of a slice: `moof_data[i]`. Out-of-range reads never occur
on the paths the source executes (it bounds-checks first); `getD` returns 0
there, and `% 256` makes every entry behave as a `u8`. -/
def byteAt (d : List Nat) (i : Nat) : Nat := d.getD i 0 % 256

/-- `u32::from_be_bytes([d[i], d[i+1], d[i+2], d[i+3]])`. -/
def u32be (d : List Nat) (i : Nat) : Nat :=
  byteAt d i * 16777216 + byteAt d (i + 1) * 65536 + byteAt d (i + 2) * 256 + byteAt d (i + 3)

/-- `u32::from_be_bytes([0, d[i], d[i+1], d[i+2]])` — the 24-bit version/flags
read used for `tfhd` and `trun` flag words. -/
def u24be (d : List Nat) (i : Nat) : Nat :=
  byteAt d i * 65536 + byteAt d (i + 1) * 256 + byteAt d (i + 2)

/-- The 4-byte box type `&d[i..i+4]`. -/
def boxTypeAt (d : List Nat) (i : Nat) : List Nat :=
  [byteAt d i, byteAt d (i + 1), byteAt d (i + 2), byteAt d (i + 3)]

/-- `b"ftyp"` -/
def ftypT : List Nat := [102, 116, 121, 112]

/-- `b"moov"` -/
def moovT : List Nat := [109, 111, 111, 118]

/-- `b"moof"` -/
def moofT : List Nat := [109, 111, 111, 102]

/-- `b"mdat"` -/
def mdatT : List Nat := [109, 100, 97, 116]

/-- `b"traf"` -/
def trafT : List Nat := [116, 114, 97, 102]

/-- `b"tfhd"` -/
def tfhdT : List Nat := [116, 102, 104, 100]

/-- `b"trun"` -/
def trunT : List Nat := [116, 114, 117, 110]

/-- The inner `while traf_off + 8 <= offset + box_size` loop of
`is_keyframe_fragment`: walk `traf` children, remembering
`tfhd.default_sample_flags` when tfhd flag bit `0x20` is set, and return from
the whole function inside the first sufficiently large `trun` child
(`some b`); `none` means the loop ended (bound reached or malformed child)
without returning. Arguments: fuel, `traf_off`, `default_flags`. -/
def trafChildLoop (d : List Nat) (trafEnd : Nat) : Nat → Nat → Option Nat → Option Bool
  | 0, _, _ => none
  | fuel + 1, trafOff, defaultFlags =>
    if trafOff + 8 ≤ trafEnd then
      let childSize := u32be d trafOff
      if childSize < 8 ∨ trafOff + childSize > trafEnd then none
      else
        let childType := boxTypeAt d (trafOff + 4)
        let defaultFlags' :=
          if childType = tfhdT ∧ 16 ≤ childSize then
            let tfhdFlags := u24be d (trafOff + 9)
            let foff := trafOff + 16
              + (if tfhdFlags &&& 1 ≠ 0 then 8 else 0)
              + (if tfhdFlags &&& 2 ≠ 0 then 4 else 0)
              + (if tfhdFlags &&& 8 ≠ 0 then 4 else 0)
              + (if tfhdFlags &&& 16 ≠ 0 then 4 else 0)
            if tfhdFlags &&& 32 ≠ 0 ∧ foff + 4 ≤ trafOff + childSize then
              some (u32be d foff)
            else defaultFlags
          else defaultFlags
        if childType = trunT ∧ 12 ≤ childSize then
          let trunFlags := u24be d (trafOff + 9)
          let toff := trafOff + 16 + (if trunFlags &&& 1 ≠ 0 then 4 else 0)
          if trunFlags &&& 4 ≠ 0 ∧ toff + 4 ≤ trafOff + childSize then
            some (((u32be d toff >>> 16) &&& 1) == 0)
          else
            match defaultFlags' with
            | some df => some (((df >>> 16) &&& 1) == 0)
            | none => some true
        else trafChildLoop d trafEnd fuel (trafOff + childSize) defaultFlags'
    else none

/-- The outer `while offset + 8 <= moof_data.len()` loop of
`is_keyframe_fragment`: walk top-level children of the `moof`; inside a `traf`
run `trafChildLoop` (its `some` is the function's return value); otherwise
skip the box. Falling off the loop returns `false`. -/
def moofWalk (d : List Nat) : Nat → Nat → Bool
  | 0, _ => false
  | fuel + 1, offset =>
    if offset + 8 ≤ d.length then
      let boxSize := u32be d offset
      if boxSize < 8 ∨ offset + boxSize > d.length then false
      else if boxTypeAt d (offset + 4) = trafT then
        match trafChildLoop d (offset + boxSize) (offset + boxSize) (offset + 8) none with
        | some b => b
        | none => moofWalk d fuel (offset + boxSize)
      else moofWalk d fuel (offset + boxSize)
    else false

/-- `is_keyframe_fragment` (src/src-tauri/src/lib.rs lines 256-315): decide
whether a `moof` slice begins a keyframed fragment by parsing
`traf → tfhd / trun` flags. -/
def is_keyframe_fragment (d : List Nat) : Bool :=
  if d.length < 16 then false else moofWalk d d.length 8

/-- Mirror of `trafChildLoop` recording only whether the walk reaches a
complete `trun` child (the only branches of `is_keyframe_fragment` that
return a value): the inner-loop half of `containsTrun`. -/
def trafHasTrun (d : List Nat) (trafEnd : Nat) : Nat → Nat → Bool
  | 0, _ => false
  | fuel + 1, trafOff =>
    if trafOff + 8 ≤ trafEnd then
      let childSize := u32be d trafOff
      if childSize < 8 ∨ trafOff + childSize > trafEnd then false
      else if boxTypeAt d (trafOff + 4) = trunT ∧ 12 ≤ childSize then true
      else trafHasTrun d trafEnd fuel (trafOff + childSize)
    else false

/-- Mirror of `moofWalk` for `containsTrun`. -/
def moofWalkHasTrun (d : List Nat) : Nat → Nat → Bool
  | 0, _ => false
  | fuel + 1, offset =>
    if offset + 8 ≤ d.length then
      let boxSize := u32be d offset
      if boxSize < 8 ∨ offset + boxSize > d.length then false
      else if boxTypeAt d (offset + 4) = trafT then
        if trafHasTrun d (offset + boxSize) (offset + boxSize) (offset + 8) then true
        else moofWalkHasTrun d fuel (offset + boxSize)
      else moofWalkHasTrun d fuel (offset + boxSize)
    else false

/-- A slice contains a complete `trun` box inside a `traf` child, in the sense
of the box walk performed by `is_keyframe_fragment`: the walk reaches a `traf`
top-level child holding a well-bounded child of type `trun` with size ≥ 12. -/
def containsTrun (d : List Nat) : Bool :=
  if d.length < 16 then false else moofWalkHasTrun d d.length 8

/-- Inner loop of `count_samples_in_moof`: sum `sample_count`
(big-endian u32 at `traf_off + 12`) over `trun` children of one `traf`. -/
def trafSampleSum (d : List Nat) (trafEnd : Nat) : Nat → Nat → Nat
  | 0, _ => 0
  | fuel + 1, trafOff =>
    if trafOff + 8 ≤ trafEnd then
      let childSize := u32be d trafOff
      if childSize < 8 ∨ trafOff + childSize > trafEnd then 0
      else
        (if boxTypeAt d (trafOff + 4) = trunT ∧ 16 ≤ childSize then u32be d (trafOff + 12) else 0)
          + trafSampleSum d trafEnd fuel (trafOff + childSize)
    else 0

/-- Outer loop of `count_samples_in_moof`: sum over all `traf` top-level
children of the `moof`. -/
def moofSampleSum (d : List Nat) : Nat → Nat → Nat
  | 0, _ => 0
  | fuel + 1, offset =>
    if offset + 8 ≤ d.length then
      let boxSize := u32be d offset
      if boxSize < 8 ∨ offset + boxSize > d.length then 0
      else
        (if boxTypeAt d (offset + 4) = trafT then
          trafSampleSum d (offset + boxSize) (offset + boxSize) (offset + 8)
        else 0) + moofSampleSum d fuel (offset + boxSize)
    else 0

/-- The `total` accumulated by `count_samples_in_moof` before the final
`.max(1)`: the sum of `trun.sample_count` over all `trun` boxes inside the
`moof`'s `traf` children. -/
def trunSampleTotal (d : List Nat) : Nat := moofSampleSum d d.length 8

/-- `count_samples_in_moof` (src/src-tauri/src/lib.rs lines 320-356):
`if moof_data.len() < 8 { return 1 }` then the walk, then `total.max(1)`. -/
def count_samples_in_moof (d : List Nat) : Nat :=
  if d.length < 8 then 1 else Nat.max (trunSampleTotal d) 1

/-- The `while segments.len() > 120 { segments.pop_front(); }` trim of the
recent-fragment deque (front of the list = front of the deque). -/
def trimCap : List (List Nat) → List (List Nat)
  | [] => []
  | x :: t => if (x :: t).length > 120 then trimCap t else x :: t

/-- The recent-fragment cache update performed when an `mdat` completes a
fragment (src/src-tauri/src/lib.rs lines 882-893): clear on keyframe, then
`push_back`, then trim at the 120-entry cap. `isKf` is the value
`is_keyframe_fragment` returned for this fragment. -/
def cacheStep (q : List (List Nat)) (isKf : Bool) (frag : List Nat) : List (List Nat) :=
  trimCap ((if isKf then [] else q) ++ [frag])

/-- Whether a recent-fragment deque is non-empty with a keyframed head. -/
def headIsKeyframe (q : List (List Nat)) : Bool :=
  match q with
  | [] => false
  | h :: _ => is_keyframe_fragment h

/-- Observable cache/broadcast operations performed by `process_fmp4_stream`,
in program order: inserting the init segment into `state.init_segments` and
sending it on the broadcast channel; pushing a completed fragment into
`state.recent_segments` and sending it on the broadcast channel. -/
inductive Act
  | cacheInit (seg : List Nat)
  | sendInit (seg : List Nat)
  | cacheFrag (frag : List Nat)
  | sendFrag (frag : List Nat)
deriving DecidableEq

/-- The state mutated by `process_fmp4_stream` for one camera: its local
parsing buffers and counters together with the per-camera shared caches it is
the single writer of, plus a log of the cache/send operations it performs. -/
structure PState where
  pending : List Nat
  initSent : Bool
  initBuf : List Nat
  fragBuf : List Nat
  moofStart : Nat
  pendingSampleCount : Nat
  frameCount : Nat
  bytesReceived : Nat
  initSeg : Option (List Nat)
  recentSegs : List (List Nat)
  log : List Act
deriving DecidableEq

/-- The local state `process_fmp4_stream` starts each attempt with
(lines 760-766): empty buffers, `init_segment_sent = false`, `moof_start = 0`,
`pending_sample_count = 1`, zeroed atomic counters. The shared caches are
taken over unchanged from the previous attempt; `freshAttempt` places the
fresh locals next to given shared-cache contents. -/
def freshAttempt (initSeg : Option (List Nat)) (recentSegs : List (List Nat)) : PState :=
  { pending := [], initSent := false, initBuf := [], fragBuf := [], moofStart := 0,
    pendingSampleCount := 1, frameCount := 0, bytesReceived := 0,
    initSeg := initSeg, recentSegs := recentSegs, log := [] }

/-- A parser state with empty shared caches, as after the very first start. -/
def initialPState : PState := freshAttempt none []

/-- The `while pending.len() >= 8` box loop of `process_fmp4_stream`
(src/src-tauri/src/lib.rs lines 799-905). `receivers` is the broadcast
channel's `receiver_count()` observed at fragment-send time. Each continuing
iteration drains `box_size ≥ 8` bytes from `pending`, so fuel
`pending.length + 1` (as instantiated by `processAll`) always suffices. -/
def processBoxes (receivers : Nat) : Nat → PState → PState
  | 0, s => s
  | fuel + 1, s =>
    if 8 ≤ s.pending.length then
      let boxSize := u32be s.pending 0
      let bt := boxTypeAt s.pending 4
      if boxSize < 8 ∨ boxSize > 52428800 then
        { s with pending := [], fragBuf := [] }
      else if s.pending.length < boxSize then s
      else if bt = ftypT ∨ bt = moovT then
        let s1 := { s with initBuf := s.initBuf ++ s.pending.take boxSize,
                           pending := s.pending.drop boxSize }
        if bt = moovT ∧ s.initSent = false then
          let iseg := s1.initBuf
          processBoxes receivers fuel
            { s1 with initSent := true, initSeg := some iseg,
                      log := s1.log ++ [Act.cacheInit iseg, Act.sendInit iseg] }
        else processBoxes receivers fuel s1
      else if bt = moofT then
        processBoxes receivers fuel
          { s with moofStart := s.fragBuf.length,
                   bytesReceived := s.bytesReceived + boxSize,
                   fragBuf := s.fragBuf ++ s.pending.take boxSize,
                   pendingSampleCount := count_samples_in_moof (s.pending.take boxSize),
                   pending := s.pending.drop boxSize }
      else if bt = mdatT then
        let frag := s.fragBuf ++ s.pending.take boxSize
        let isKf := is_keyframe_fragment (frag.drop s.moofStart)
        processBoxes receivers fuel
          { s with frameCount := s.frameCount + s.pendingSampleCount,
                   bytesReceived := s.bytesReceived + boxSize,
                   fragBuf := [],
                   pending := s.pending.drop boxSize,
                   recentSegs := cacheStep s.recentSegs isKf frag,
                   log := s.log ++ [Act.cacheFrag frag]
                     ++ (if 0 < receivers then [Act.sendFrag frag] else []) }
      else
        processBoxes receivers fuel { s with pending := s.pending.drop boxSize }
    else s

/-- Run the box loop to completion on the current `pending` buffer. -/
def processAll (receivers : Nat) (s : PState) : PState :=
  processBoxes receivers (s.pending.length + 1) s

/-- One iteration of the read loop after a successful `read` of `chunk`
bytes: `pending.extend_from_slice(&buf[..n])`, the box loop, then the 5 MiB
overflow reset (src/src-tauri/src/lib.rs lines 796-912). -/
def readStep (receivers : Nat) (chunk : List Nat) (s : PState) : PState :=
  let s1 := processAll receivers { s with pending := s.pending ++ chunk }
  if 5242880 < s1.pending.length then { s1 with pending := [], fragBuf := [] } else s1

/-- Outcome of one `stdout.read` await in the read loop. -/
inductive ReadEvent
  | chunk (data : List Nat)
  | eof
  | timeout
  | ioError
deriving DecidableEq

/-- The two reasons `process_fmp4_stream` returns `Err` to the supervisor. -/
inductive FailReason
  | readTimeout
  | readIO
deriving DecidableEq

/-- The read loop of `process_fmp4_stream` over a sequence of read outcomes:
data chunks are parsed in place and never end the attempt; EOF ends it with
`Ok`; a 30 s timeout or a read error ends it with `Err`. -/
def runEvents (receivers : Nat) : List ReadEvent → PState → Except FailReason PState
  | [], s => Except.ok s
  | ReadEvent.chunk c :: rest, s => runEvents receivers rest (readStep receivers c s)
  | ReadEvent.eof :: _, s => Except.ok s
  | ReadEvent.timeout :: _, _ => Except.error FailReason.readTimeout
  | ReadEvent.ioError :: _, _ => Except.error FailReason.readIO

/-- `calculate_backoff` (src/src-tauri/src/lib.rs lines 381-390), in seconds:
`match attempt { 1..=5 => 2^min(attempt-1, 31), 6..=10 => 60, _ => 300 }`. -/
def calculate_backoff (attempt : Nat) : Nat :=
  if 1 ≤ attempt ∧ attempt ≤ 5 then 2 ^ (min (attempt - 1) 31)
  else if 6 ≤ attempt ∧ attempt ≤ 10 then 60
  else 300

/-- How one supervisor attempt ends: worker spawn failure, read timeout,
read I/O error (all `Err`), or a clean FFmpeg EOF (`Ok`). -/
inductive AttemptOutcome
  | spawnFail
  | readTimeout
  | readIO
  | cleanEof
deriving DecidableEq

/-- Number of `stream-error` events emitted inside `try_stream_camera` itself
for a given outcome: the spawn-failure branch (src/src-tauri/src/lib.rs lines
586-596) emits one unconditionally before returning `Err`; no other path in
`try_stream_camera` emits `stream-error`. -/
def tryStreamErrorCount : AttemptOutcome → Nat
  | AttemptOutcome.spawnFail => 1
  | _ => 0

/-- Whether `try_stream_camera` returns `Err` for this outcome (a clean EOF
returns `Ok`). -/
def attemptIsErr : AttemptOutcome → Bool
  | AttemptOutcome.spawnFail => true
  | AttemptOutcome.readTimeout => true
  | AttemptOutcome.readIO => true
  | AttemptOutcome.cleanEof => false

/-- Total number of `stream-error` events emitted during one iteration of the
`stream_camera` supervisor loop when the current attempt count is `attempt`
and the attempt ends with outcome `o`: the events from inside
`try_stream_camera` plus the wrapper's own `stream-error`, which it emits only
when the attempt failed and `attempt >= 3`
(src/src-tauri/src/lib.rs lines 432-443). -/
def supervisorStreamErrorCount (attempt : Nat) (o : AttemptOutcome) : Nat :=
  tryStreamErrorCount o + (if attemptIsErr o = true ∧ 3 ≤ attempt then 1 else 0)

/-- The per-camera shared state relevant to attempt transitions: whether a
health entry and a broadcast channel exist, the reconnect-attempt counter, and
the two late-joiner caches. -/
structure SharedCaches where
  health : Bool
  attempts : Nat
  broadcaster : Bool
  initSeg : Option (List Nat)
  recentSegs : List (List Nat)
deriving DecidableEq

/-- The shared-state effect of one supervisor loop iteration starting its next
attempt: `stream_camera` increments the reconnect counter (lines 400-413) and
`try_stream_camera` creates the broadcast channel if absent (lines 481-488)
and inserts a fresh health entry (lines 598-612). No statement in either
function touches `init_segments` or `recent_segments`. -/
def attemptRestart (sh : SharedCaches) : SharedCaches :=
  { sh with attempts := sh.attempts + 1, broadcaster := true, health := true }

/-- The shared-state effect of `stop_streams` (src/src-tauri/src/lib.rs lines
181-214): clears the health map, the reconnect counters, the init-segment
cache and the recent-fragment cache (the broadcaster map is not cleared). -/
def stopStreamsClear (sh : SharedCaches) : SharedCaches :=
  { sh with health := false, attempts := 0, initSeg := none, recentSegs := [] }

/-- The operations the `GET /camera/{id}/stream` handler of `run_api_server`
performs, in program order (src/src-tauri/src/lib.rs lines 1052-1118):
subscribe to the broadcast channel, write the response headers, snapshot and
write the cached init segment, snapshot and write the cached recent
fragments, then enter the live receive loop. -/
inductive HOp
  | subscribe
  | writeHeaders
  | snapInit
  | writeInit
  | snapRecent
  | writeRecent
  | liveLoop
deriving DecidableEq, BEq

/-- The handler's operation sequence, in source order. -/
def streamHandlerOps : List HOp :=
  [HOp.subscribe, HOp.writeHeaders, HOp.snapInit, HOp.writeInit,
   HOp.snapRecent, HOp.writeRecent, HOp.liveLoop]

/-! ### Concrete byte slices used as witnesses and counterexamples -/

/-- A minimal `moof` box (16 bytes) whose only child is a `free` box: it
contains no `traf`, hence no `trun`, so it is not keyframed and declares no
samples. -/
def moofNoTraf : List Nat :=
  [0, 0, 0, 16, 109, 111, 111, 102,
   0, 0, 0, 8, 102, 114, 101, 101]

/-- A minimal 8-byte `mdat` box (header only). -/
def mdat8 : List Nat := [0, 0, 0, 8, 109, 100, 97, 116]

/-- A minimal 8-byte `ftyp` box (header only). -/
def ftyp8 : List Nat := [0, 0, 0, 8, 102, 116, 121, 112]

/-- A minimal 8-byte `moov` box (header only). -/
def moov8 : List Nat := [0, 0, 0, 8, 109, 111, 111, 118]

/-- A 36-byte `moof` whose `traf` holds one `trun` with flag `0x004`
(first-sample-flags present) and `first_sample_flags` equal to the big-endian
bytes of `f`. Layout: moof header; traf (size 28); trun (size 20) with
version 0, flags 0x000004, sample_count 1, first_sample_flags `f`. -/
def moofFirstSampleFlags (f : Nat) : List Nat :=
  [0, 0, 0, 36, 109, 111, 111, 102,
   0, 0, 0, 28, 116, 114, 97, 102,
   0, 0, 0, 20, 116, 114, 117, 110,
   0, 0, 0, 4,
   0, 0, 0, 1,
   f / 16777216 % 256, f / 65536 % 256, f / 256 % 256, f % 256]

/-- A 52-byte `moof` whose `traf` holds a `tfhd` with flag `0x20`
(default-sample-flags present) carrying `f`, followed by a `trun` with flags
0 (no first-sample-flags). Layout: moof header; traf (size 44); tfhd
(size 20) with flags 0x000020, track_id 1, default_sample_flags `f`; trun
(size 16) with flags 0, sample_count 1. -/
def moofDefaultFlags (f : Nat) : List Nat :=
  [0, 0, 0, 52, 109, 111, 111, 102,
   0, 0, 0, 44, 116, 114, 97, 102,
   0, 0, 0, 20, 116, 102, 104, 100,
   0, 0, 0, 32,
   0, 0, 0, 1,
   f / 16777216 % 256, f / 65536 % 256, f / 256 % 256, f % 256,
   0, 0, 0, 16, 116, 114, 117, 110,
   0, 0, 0, 0,
   0, 0, 0, 1]

/-- A 32-byte `moof` whose `traf` holds only a `trun` with flags 0 and no
`tfhd`: no flag information at all. Layout: moof header; traf (size 24);
trun (size 16) with flags 0, sample_count 1. -/
def moofNoFlags : List Nat :=
  [0, 0, 0, 32, 109, 111, 111, 102,
   0, 0, 0, 24, 116, 114, 97, 102,
   0, 0, 0, 16, 116, 114, 117, 110,
   0, 0, 0, 0,
   0, 0, 0, 1]

/-- C8 counterexample input: a camera's shared caches as left by a previous
attempt, holding an init segment and one recent fragment. -/
def cachesBefore : SharedCaches :=
  { health := true, attempts := 1, broadcaster := true, initSeg := some [1], recentSegs := [[2]] }

/-- A fresh parser state whose pending buffer holds a traf-less `moof`
followed by its `mdat`. -/
def frameCountState : PState := { initialPState with pending := moofNoTraf ++ mdat8 }

/-- A fresh parser state whose pending buffer starts with a corrupt box
header (size 0). -/
def corruptState : PState := { initialPState with pending := [0, 0, 0, 0, 1, 2, 3, 4] }

/-- A fresh parser state whose pending buffer holds a single `mdat` box. -/
def mdatOnlyState : PState := { initialPState with pending := mdat8 }

/-- A fresh parser state whose pending buffer holds a single `moov` box. -/
def moovOnlyState : PState := { initialPState with pending := moov8 }

/-! ### Helper lemmas -/

/-- The box loop does nothing once fewer than 8 pending bytes remain. -/
theorem processBoxes_stop (r fuel : Nat) (s : PState) (h : s.pending.length < 8) :
    processBoxes r fuel s = s := by
  cases fuel with
  | zero => rfl
  | succ n => unfold processBoxes; rw [if_neg (by omega)]

theorem u32be_append (m d : List Nat) (i : Nat) (h : i + 4 ≤ m.length) :
    u32be (m ++ d) i = u32be m i := by
  unfold u32be byteAt
  rw [List.getD_append _ _ _ _ (by omega), List.getD_append _ _ _ _ (by omega),
      List.getD_append _ _ _ _ (by omega), List.getD_append _ _ _ _ (by omega)]

theorem boxTypeAt_append (m d : List Nat) (i : Nat) (h : i + 4 ≤ m.length) :
    boxTypeAt (m ++ d) i = boxTypeAt m i := by
  unfold boxTypeAt byteAt
  rw [List.getD_append _ _ _ _ (by omega), List.getD_append _ _ _ _ (by omega),
      List.getD_append _ _ _ _ (by omega), List.getD_append _ _ _ _ (by omega)]

/-- One iteration of the box loop on a pending buffer starting with a complete
`moof` box: stash it in the fragment buffer, record where it starts, and set
the pending sample count from its `trun` boxes. -/
theorem processBoxes_moof_step (r n : Nat) (s : PState) (m rest : List Nat)
    (hp : s.pending = m ++ rest) (hsz : u32be m 0 = m.length) (h8 : 8 ≤ m.length)
    (hcap : m.length ≤ 52428800) (hty : boxTypeAt m 4 = moofT) :
    processBoxes r (n + 1) s = processBoxes r n
      { s with moofStart := s.fragBuf.length,
               bytesReceived := s.bytesReceived + m.length,
               fragBuf := s.fragBuf ++ m,
               pendingSampleCount := count_samples_in_moof m,
               pending := rest } := by
  have hu : u32be s.pending 0 = m.length := by rw [hp, u32be_append _ _ _ (by omega), hsz]
  have hb : boxTypeAt s.pending 4 = moofT := by rw [hp, boxTypeAt_append _ _ _ (by omega), hty]
  have hlen : s.pending.length = m.length + rest.length := by rw [hp, List.length_append]
  have htake : s.pending.take m.length = m := by rw [hp, List.take_left]
  have hdrop : s.pending.drop m.length = rest := by rw [hp, List.drop_left]
  have hne1 : (moofT = ftypT ∨ moofT = moovT) = False := by simp [moofT, ftypT, moovT]
  have hne2 : (moofT = mdatT) = False := by simp [moofT, mdatT]
  conv_lhs => rw [processBoxes]
  rw [if_pos (by omega)]
  simp only [hu, hb, hne1, hne2, htake, hdrop]
  rw [if_neg (by omega), if_neg (by omega)]
  simp

/-- One iteration of the box loop on a pending buffer starting with a complete
`mdat` box: complete the fragment, bump the frame counter by the pending
sample count, update the recent-fragment cache, and send the fragment iff a
receiver is attached. -/
theorem processBoxes_mdat_step (r n : Nat) (s : PState) (b rest : List Nat)
    (hp : s.pending = b ++ rest) (hsz : u32be b 0 = b.length) (h8 : 8 ≤ b.length)
    (hcap : b.length ≤ 52428800) (hty : boxTypeAt b 4 = mdatT) :
    processBoxes r (n + 1) s = processBoxes r n
      { s with frameCount := s.frameCount + s.pendingSampleCount,
               bytesReceived := s.bytesReceived + b.length,
               fragBuf := [],
               pending := rest,
               recentSegs := cacheStep s.recentSegs
                 (is_keyframe_fragment ((s.fragBuf ++ b).drop s.moofStart)) (s.fragBuf ++ b),
               log := s.log ++ [Act.cacheFrag (s.fragBuf ++ b)]
                 ++ (if 0 < r then [Act.sendFrag (s.fragBuf ++ b)] else []) } := by
  have hu : u32be s.pending 0 = b.length := by rw [hp, u32be_append _ _ _ (by omega), hsz]
  have hb : boxTypeAt s.pending 4 = mdatT := by rw [hp, boxTypeAt_append _ _ _ (by omega), hty]
  have hlen : s.pending.length = b.length + rest.length := by rw [hp, List.length_append]
  have htake : s.pending.take b.length = b := by rw [hp, List.take_left]
  have hdrop : s.pending.drop b.length = rest := by rw [hp, List.drop_left]
  have hne1 : (mdatT = ftypT ∨ mdatT = moovT) = False := by simp [mdatT, ftypT, moovT]
  have hne2 : (mdatT = moofT) = False := by simp [mdatT, moofT]
  conv_lhs => rw [processBoxes]
  rw [if_pos (by omega)]
  simp only [hu, hb, hne1, hne2, htake, hdrop]
  rw [if_neg (by omega), if_neg (by omega)]
  simp

/-- One iteration of the box loop on a pending buffer starting with a complete
`moov` box while the init segment has not been sent yet: insert the combined
`ftyp||moov` bytes into the init cache and then send them, unconditionally. -/
theorem processBoxes_moov_step (r n : Nat) (s : PState) (b rest : List Nat)
    (hp : s.pending = b ++ rest) (hsz : u32be b 0 = b.length) (h8 : 8 ≤ b.length)
    (hcap : b.length ≤ 52428800) (hty : boxTypeAt b 4 = moovT) (hsent : s.initSent = false) :
    processBoxes r (n + 1) s = processBoxes r n
      { s with initBuf := s.initBuf ++ b,
               pending := rest,
               initSent := true,
               initSeg := some (s.initBuf ++ b),
               log := s.log ++ [Act.cacheInit (s.initBuf ++ b), Act.sendInit (s.initBuf ++ b)] } := by
  have hu : u32be s.pending 0 = b.length := by rw [hp, u32be_append _ _ _ (by omega), hsz]
  have hb : boxTypeAt s.pending 4 = moovT := by rw [hp, boxTypeAt_append _ _ _ (by omega), hty]
  have hlen : s.pending.length = b.length + rest.length := by rw [hp, List.length_append]
  have htake : s.pending.take b.length = b := by rw [hp, List.take_left]
  have hdrop : s.pending.drop b.length = rest := by rw [hp, List.drop_left]
  conv_lhs => rw [processBoxes]
  rw [if_pos (by omega)]
  simp only [hu, hb, htake, hdrop, hsent]
  rw [if_neg (by omega), if_neg (by omega)]
  simp

/-- If the `traf` child walk never reaches a complete `trun`, `trafChildLoop`
falls off its loop without returning, whatever default flags it carries. -/
theorem trafChildLoop_of_no_trun (d : List Nat) (trafEnd : Nat) :
    ∀ fuel trafOff df, trafHasTrun d trafEnd fuel trafOff = false →
      trafChildLoop d trafEnd fuel trafOff df = none := by
  intro fuel
  induction fuel with
  | zero => intro trafOff df _; rfl
  | succ n ih =>
    intro trafOff df h
    unfold trafHasTrun at h
    unfold trafChildLoop
    by_cases h1 : trafOff + 8 ≤ trafEnd
    · simp only [if_pos h1] at h ⊢
      by_cases h2 : u32be d trafOff < 8 ∨ trafOff + u32be d trafOff > trafEnd
      · simp only [if_pos h2] at h ⊢
      · simp only [if_neg h2] at h ⊢
        by_cases h3 : boxTypeAt d (trafOff + 4) = trunT ∧ 12 ≤ u32be d trafOff
        · simp only [if_pos h3] at h
          exact absurd h (by decide)
        · simp only [if_neg h3] at h ⊢
          exact ih _ _ h
    · simp only [if_neg h1] at h ⊢

/-- If no `traf` top-level child of the walk holds a complete `trun`, the
`moof` walk of `is_keyframe_fragment` returns `false`. -/
theorem moofWalk_of_no_trun (d : List Nat) :
    ∀ fuel offset, moofWalkHasTrun d fuel offset = false → moofWalk d fuel offset = false := by
  intro fuel
  induction fuel with
  | zero => intro offset _; rfl
  | succ n ih =>
    intro offset h
    unfold moofWalkHasTrun at h
    unfold moofWalk
    by_cases h1 : offset + 8 ≤ d.length
    · simp only [if_pos h1] at h ⊢
      by_cases h2 : u32be d offset < 8 ∨ offset + u32be d offset > d.length
      · simp only [if_pos h2] at h ⊢
      · simp only [if_neg h2] at h ⊢
        by_cases h3 : boxTypeAt d (offset + 4) = trafT
        · simp only [if_pos h3] at h ⊢
          by_cases h4 : trafHasTrun d (offset + u32be d offset) (offset + u32be d offset)
              (offset + 8) = true
          · simp only [if_pos h4] at h
            exact absurd h (by decide)
          · simp only [if_neg h4] at h
            rw [trafChildLoop_of_no_trun d _ _ _ _ (Bool.not_eq_true _ ▸ h4)]
            exact ih _ h
        · simp only [if_neg h3] at h ⊢
          exact ih _ h
    · simp only [if_neg h1] at h ⊢

/-- The keyframe decision on the fixed first-sample-flags layout: whatever the
four flag bytes at offset 32 hold, the walk returns the
`sample_is_non_sync_sample` test on them. -/
theorem moofWalk_firstSampleFlags (d : List Nat) (hlen : d.length = 36) (h8 : u32be d 8 = 28)
    (h16 : u32be d 16 = 20) (ht12 : boxTypeAt d 12 = trafT) (ht20 : boxTypeAt d 20 = trunT)
    (h25 : u24be d 25 = 4) :
    is_keyframe_fragment d = ((u32be d 32 >>> 16) &&& 1 == 0) := by
  have hne : (trunT = tfhdT) = False := by simp [trunT, tfhdT]
  simp [is_keyframe_fragment, moofWalk, trafChildLoop, hlen, h8, h16, ht12, ht20, h25, hne]

/-- The keyframe decision on the fixed tfhd-default-flags layout: with no
first-sample-flags in the `trun`, the walk falls back to the
`default_sample_flags` read at offset 32. -/
theorem moofWalk_defaultFlags (d : List Nat) (hlen : d.length = 52) (h8 : u32be d 8 = 44)
    (ht12 : boxTypeAt d 12 = trafT) (h16 : u32be d 16 = 20) (ht20 : boxTypeAt d 20 = tfhdT)
    (h25 : u24be d 25 = 32) (h36 : u32be d 36 = 16) (ht40 : boxTypeAt d 40 = trunT)
    (h45 : u24be d 45 = 0) :
    is_keyframe_fragment d = ((u32be d 32 >>> 16) &&& 1 == 0) := by
  have hne1 : (tfhdT = trunT) = False := by simp [trunT, tfhdT]
  have hne2 : (trunT = tfhdT) = False := by simp [trunT, tfhdT]
  have ha2 : (32 : Nat) &&& 2 = 0 := by decide
  have ha8 : (32 : Nat) &&& 8 = 0 := by decide
  have ha16 : (32 : Nat) &&& 16 = 0 := by decide
  simp [is_keyframe_fragment, moofWalk, trafChildLoop, hlen, h8, ht12, h16, ht20, h25,
        h36, ht40, h45, hne1, hne2, ha2, ha8, ha16]

/-! ### Claim theorems -/

theorem trimCap_of_le (l : List (List Nat)) (h : l.length ≤ 120) : trimCap l = l := by
  cases l with
  | nil => rfl
  | cons x t => unfold trimCap; rw [if_neg (by omega)]

theorem processAll_moov_log (r : Nat) (s : PState) (b : List Nat) (hp : s.pending = b)
    (hsz : u32be b 0 = b.length) (h8 : 8 ≤ b.length) (hcap : b.length ≤ 52428800)
    (hty : boxTypeAt b 4 = moovT) (hsent : s.initSent = false) :
    (processAll r s).log
      = s.log ++ [Act.cacheInit (s.initBuf ++ b), Act.sendInit (s.initBuf ++ b)] := by
  unfold processAll
  rw [hp]
  rw [processBoxes_moov_step r b.length s b [] (by rw [hp, List.append_nil]) hsz h8 hcap hty hsent]
  rw [processBoxes_stop _ _ _ (by simp)]

theorem processAll_mdat_log (r : Nat) (s : PState) (b : List Nat) (hp : s.pending = b)
    (hsz : u32be b 0 = b.length) (h8 : 8 ≤ b.length) (hcap : b.length ≤ 52428800)
    (hty : boxTypeAt b 4 = mdatT) :
    (processAll r s).log = s.log ++ [Act.cacheFrag (s.fragBuf ++ b)]
      ++ (if 0 < r then [Act.sendFrag (s.fragBuf ++ b)] else []) := by
  unfold processAll
  rw [hp]
  rw [processBoxes_mdat_step r b.length s b [] (by rw [hp, List.append_nil]) hsz h8 hcap hty]
  rw [processBoxes_stop _ _ _ (by simp)]

/-- C1 counterexample: feeding one complete `moof`+`mdat` pair whose `moof`
holds no `traf` (hence `is_keyframe_fragment` returns `false`) to a fresh
parser leaves the recent-fragment deque non-empty with a non-keyframed head,
so the claimed invariant "the deque is empty or its first entry is a keyframed
fragment" fails right after this push step. -/
theorem recent_head_keyframe_counterexample :
    (readStep 0 (moofNoTraf ++ mdat8) initialPState).recentSegs ≠ []
    ∧ headIsKeyframe (readStep 0 (moofNoTraf ++ mdat8) initialPState).recentSegs = false := by
  decide

/-- C1 amended: after a cache step with a keyframed fragment the deque holds
exactly that fragment (so the head is keyframed); after a cache step with a
non-keyframed fragment the keyframed head is preserved provided the deque was
non-empty with a keyframed head and held at most 119 entries.  Pushing a
non-keyframed fragment into an empty deque, or the 120-cap trim evicting the
oldest entry, can leave a non-keyframed head, which is what the
counterexample exhibits. -/
theorem cache_head_keyframe_amended (q : List (List Nat)) (f : List Nat) :
    (is_keyframe_fragment f = true → cacheStep q (is_keyframe_fragment f) f = [f])
    ∧ (is_keyframe_fragment f = false → q ≠ [] → headIsKeyframe q = true → q.length ≤ 119 →
       headIsKeyframe (cacheStep q (is_keyframe_fragment f) f) = true) := by
  constructor
  · intro h
    unfold cacheStep
    rw [h, if_pos rfl, List.nil_append, trimCap_of_le _ (by simp)]
  · intro h hne hh hlen
    unfold cacheStep
    rw [h, if_neg (by simp), trimCap_of_le _ (by simp; omega)]
    cases q with
    | nil => exact absurd rfl hne
    | cons x t => simpa [headIsKeyframe] using hh

theorem cache_head_keyframe_amended_witness :
    is_keyframe_fragment moofNoFlags = true
    ∧ cacheStep [] (is_keyframe_fragment moofNoFlags) moofNoFlags = [moofNoFlags] :=
  ⟨by decide, (cache_head_keyframe_amended [] moofNoFlags).1 (by decide)⟩

/-- C2, code bug: the supervisor wrapper suppresses its own `stream-error`
below attempt 3, but `try_stream_camera` emits one unconditionally in its
spawn-failure branch, so a worker spawn failure at attempt 1 or 2 still emits
a `stream-error`; the other failure modes emit none before attempt 3 as the
claim states. -/
theorem spawn_failure_emits_early_stream_error :
    supervisorStreamErrorCount 1 AttemptOutcome.spawnFail = 1
    ∧ supervisorStreamErrorCount 2 AttemptOutcome.spawnFail = 1
    ∧ supervisorStreamErrorCount 1 AttemptOutcome.readTimeout = 0
    ∧ supervisorStreamErrorCount 2 AttemptOutcome.readIO = 0 := by decide

/-- C3: the backoff slept after a failed attempt `n` is `2^(n-1)` seconds for
`1 ≤ n ≤ 5`, 60 seconds for `6 ≤ n ≤ 10`, and 300 seconds for `n ≥ 11`. -/
theorem backoff_schedule (n : Nat) :
    (1 ≤ n → n ≤ 5 → calculate_backoff n = 2 ^ (n - 1))
    ∧ (6 ≤ n → n ≤ 10 → calculate_backoff n = 60)
    ∧ (11 ≤ n → calculate_backoff n = 300) := by
  refine ⟨fun h1 h5 => ?_, fun h6 h10 => ?_, fun h11 => ?_⟩
  · unfold calculate_backoff
    rw [if_pos ⟨h1, h5⟩]
    congr 1
    omega
  · unfold calculate_backoff
    rw [if_neg (by omega), if_pos ⟨h6, h10⟩]
  · unfold calculate_backoff
    rw [if_neg (by omega), if_neg (by omega)]

theorem backoff_schedule_witness :
    calculate_backoff 4 = 2 ^ (4 - 1) ∧ calculate_backoff 8 = 60 ∧ calculate_backoff 12 = 300 :=
  ⟨(backoff_schedule 4).1 (by decide) (by decide),
   (backoff_schedule 8).2.1 (by decide) (by decide),
   (backoff_schedule 12).2.2 (by decide)⟩

theorem attempt_restart_keeps_caches_counterexample :
    (attemptRestart cachesBefore).initSeg ≠ none
    ∧ (attemptRestart cachesBefore).recentSegs ≠ [] := by decide

/-- C8 amended: when the next supervisor attempt begins, the attempt-local
parser state is fresh (empty pending/fragment/init buffers, `init_segment_sent
= false`), but the shared init-segment and recent-fragment caches are NOT
cleared — the attempt transition leaves both unchanged; they are cleared only
by `stop_streams`. -/
theorem attempt_restart_amended (sh : SharedCaches) :
    (attemptRestart sh).initSeg = sh.initSeg
    ∧ (attemptRestart sh).recentSegs = sh.recentSegs
    ∧ (stopStreamsClear sh).initSeg = none
    ∧ (stopStreamsClear sh).recentSegs = []
    ∧ (freshAttempt sh.initSeg sh.recentSegs).pending = []
    ∧ (freshAttempt sh.initSeg sh.recentSegs).fragBuf = []
    ∧ (freshAttempt sh.initSeg sh.recentSegs).initBuf = []
    ∧ (freshAttempt sh.initSeg sh.recentSegs).initSent = false :=
  ⟨rfl, rfl, rfl, rfl, rfl, rfl, rfl, rfl⟩

/-- C10: whenever a slice contains no complete `trun` box inside a `traf`
child in the sense of the parser's own walk (in particular whenever the slice
is shorter than 16 bytes), `is_keyframe_fragment` returns `false`: the
"assume keyframe" fallback fires only with a `trun` present. -/
theorem no_trun_not_keyframe (d : List Nat)
    (h : d.length < 16 ∨ containsTrun d = false) :
    is_keyframe_fragment d = false := by
  rcases h with h | h
  · unfold is_keyframe_fragment; rw [if_pos h]
  · unfold is_keyframe_fragment
    by_cases h16 : d.length < 16
    · rw [if_pos h16]
    · rw [if_neg h16]
      unfold containsTrun at h
      rw [if_neg h16] at h
      exact moofWalk_of_no_trun d _ _ h

theorem no_trun_not_keyframe_witness :
    (moofNoTraf.length < 16 ∨ containsTrun moofNoTraf = false)
    ∧ is_keyframe_fragment moofNoTraf = false :=
  ⟨Or.inr (by decide), no_trun_not_keyframe moofNoTraf (Or.inr (by decide))⟩

/-- C4: `is_keyframe_fragment` decides keyframe-ness as specified.  On a moof
whose `trun` carries flag `0x004`, the answer is
`(first_sample_flags >>> 16) &&& 1 == 0` for every 32-bit flag word; on a moof
whose `trun` has no first-sample-flags but whose `tfhd` carries
`default_sample_flags` (flag `0x20`), the answer is the same test on the
default flags; and with no flag information at all the fragment is assumed to
be a keyframe. -/
theorem keyframe_flag_semantics :
    (∀ f, f < 4294967296 →
      is_keyframe_fragment (moofFirstSampleFlags f) = (((f >>> 16) &&& 1) == 0))
    ∧ (∀ f, f < 4294967296 →
      is_keyframe_fragment (moofDefaultFlags f) = (((f >>> 16) &&& 1) == 0))
    ∧ is_keyframe_fragment moofNoFlags = true := by
  refine ⟨fun f hf => ?_, fun f hf => ?_, by decide⟩
  · have h32 : u32be (moofFirstSampleFlags f) 32 = f := by
      have h : u32be (moofFirstSampleFlags f) 32
          = f / 16777216 % 256 % 256 * 16777216 + f / 65536 % 256 % 256 * 65536
            + f / 256 % 256 % 256 * 256 + f % 256 % 256 := by
        simp [u32be, byteAt, moofFirstSampleFlags]
      rw [h]; omega
    rw [moofWalk_firstSampleFlags (moofFirstSampleFlags f)
          (by simp [moofFirstSampleFlags])
          (by simp [u32be, byteAt, moofFirstSampleFlags])
          (by simp [u32be, byteAt, moofFirstSampleFlags])
          (by simp [boxTypeAt, byteAt, moofFirstSampleFlags, trafT])
          (by simp [boxTypeAt, byteAt, moofFirstSampleFlags, trunT])
          (by simp [u24be, byteAt, moofFirstSampleFlags]),
        h32]
  · have h32 : u32be (moofDefaultFlags f) 32 = f := by
      have h : u32be (moofDefaultFlags f) 32
          = f / 16777216 % 256 % 256 * 16777216 + f / 65536 % 256 % 256 * 65536
            + f / 256 % 256 % 256 * 256 + f % 256 % 256 := by
        simp [u32be, byteAt, moofDefaultFlags]
      rw [h]; omega
    rw [moofWalk_defaultFlags (moofDefaultFlags f)
          (by simp [moofDefaultFlags])
          (by simp [u32be, byteAt, moofDefaultFlags])
          (by simp [boxTypeAt, byteAt, moofDefaultFlags, trafT])
          (by simp [u32be, byteAt, moofDefaultFlags])
          (by simp [boxTypeAt, byteAt, moofDefaultFlags, tfhdT])
          (by simp [u24be, byteAt, moofDefaultFlags])
          (by simp [u32be, byteAt, moofDefaultFlags])
          (by simp [boxTypeAt, byteAt, moofDefaultFlags, trunT])
          (by simp [u24be, byteAt, moofDefaultFlags]),
        h32]

theorem keyframe_flag_semantics_witness :
    (65536 < 4294967296
      ∧ is_keyframe_fragment (moofFirstSampleFlags 65536) = (((65536 >>> 16) &&& 1) == 0))
    ∧ (0 < 4294967296
      ∧ is_keyframe_fragment (moofDefaultFlags 0) = (((0 >>> 16) &&& 1) == 0)) :=
  ⟨⟨by decide, keyframe_flag_semantics.1 65536 (by decide)⟩,
   ⟨by decide, keyframe_flag_semantics.2.1 0 (by decide)⟩⟩

/-- C5: when a `moof` box is followed by its paired `mdat`, completing the
fragment increments the frame counter by `max(trun sample-count sum, 1)`:
exactly the sum of `sample_count` over the moof's `trun` boxes, and by 1 when
that sum is 0. -/
theorem frame_count_from_trun_sum (r : Nat) (s : PState) (m d : List Nat)
    (hp : s.pending = m ++ d)
    (hszm : u32be m 0 = m.length) (h8m : 8 ≤ m.length) (hcapm : m.length ≤ 52428800)
    (htym : boxTypeAt m 4 = moofT)
    (hszd : u32be d 0 = d.length) (h8d : 8 ≤ d.length) (hcapd : d.length ≤ 52428800)
    (htyd : boxTypeAt d 4 = mdatT) :
    (processAll r s).frameCount = s.frameCount + Nat.max (trunSampleTotal m) 1
    ∧ (trunSampleTotal m = 0 → (processAll r s).frameCount = s.frameCount + 1) := by
  have hcount : count_samples_in_moof m = Nat.max (trunSampleTotal m) 1 := by
    unfold count_samples_in_moof; rw [if_neg (by omega)]
  have hmain : (processAll r s).frameCount = s.frameCount + Nat.max (trunSampleTotal m) 1 := by
    unfold processAll
    rw [hp, List.length_append]
    rw [processBoxes_moof_step r (m.length + d.length) s m d hp hszm h8m hcapm htym]
    obtain ⟨k, hk⟩ : ∃ k, m.length + d.length = k + 1 := ⟨m.length + d.length - 1, by omega⟩
    rw [hk]
    rw [processBoxes_mdat_step r k _ d [] (by simp) hszd h8d hcapd htyd]
    rw [processBoxes_stop _ _ _ (by simp)]
    simp [hcount]
  exact ⟨hmain, fun h0 => by rw [hmain, h0]; simp⟩

theorem frame_count_from_trun_sum_witness :
    trunSampleTotal moofNoTraf = 0
    ∧ (processAll 0 frameCountState).frameCount = frameCountState.frameCount + 1 :=
  ⟨by decide,
   (frame_count_from_trun_sum 0 frameCountState moofNoTraf mdat8 rfl (by decide) (by decide)
      (by decide) (by decide) (by decide) (by decide) (by decide) (by decide)).2 (by decide)⟩

/-- C6: a parsed box header with size < 8 or > 50 MiB makes the box loop
clear the pending and fragment buffers and stop in place, changing nothing
else; after every read step the pending buffer is at most 5 MiB; and no
sequence of data chunks — whatever bytes they hold — can make the read loop
return an error, so no worker restart is triggered by parse corruption. -/
theorem parse_corruption_recovered_in_place :
    (∀ r (s : PState), 8 ≤ s.pending.length →
       (u32be s.pending 0 < 8 ∨ u32be s.pending 0 > 52428800) →
       processAll r s = { s with pending := [], fragBuf := [] })
    ∧ (∀ r chunk (s : PState), (readStep r chunk s).pending.length ≤ 5242880)
    ∧ (∀ r (datas : List (List Nat)), ∀ s : PState,
        ∃ s', runEvents r (datas.map ReadEvent.chunk ++ [ReadEvent.eof]) s = Except.ok s') := by
  refine ⟨fun r s h8 hbad => ?_, fun r chunk s => ?_, fun r datas => ?_⟩
  · unfold processAll
    conv_lhs => rw [processBoxes]
    rw [if_pos h8]
    simp only [hbad, if_pos]
  · unfold readStep
    simp only
    split
    · simp
    · omega
  · induction datas with
    | nil => intro s; exact ⟨s, rfl⟩
    | cons c rest ih =>
      intro s
      simpa [runEvents] using ih (readStep r c s)

theorem parse_corruption_recovered_in_place_witness :
    processAll 0 corruptState = { corruptState with pending := [], fragBuf := [] } :=
  parse_corruption_recovered_in_place.1 0 corruptState (by decide) (Or.inl (by decide))

/-- C7 counterexample: with `receiver_count = 0`, processing `ftyp` + `moov`
still performs the init-segment broadcast send — the code only guards the
fragment send with `receiver_count() > 0`, not the init-segment send. -/
theorem init_sent_with_zero_receivers_counterexample :
    Act.sendInit (ftyp8 ++ moov8) ∈ (readStep 0 (ftyp8 ++ moov8) initialPState).log := by decide

/-- C7 amended: a completed `moof`+`mdat` fragment is sent on the broadcast
channel iff `receiver_count > 0` at the moment of sending (the send is skipped
at 0 receivers), while the init segment is cached and then sent
unconditionally, regardless of the receiver count. -/
theorem fragment_send_skipped_amended :
    (∀ r (s : PState) b, s.pending = b → u32be b 0 = b.length → 8 ≤ b.length →
       b.length ≤ 52428800 → boxTypeAt b 4 = mdatT →
       (processAll r s).log = s.log ++ [Act.cacheFrag (s.fragBuf ++ b)]
         ++ (if 0 < r then [Act.sendFrag (s.fragBuf ++ b)] else []))
    ∧ (∀ r (s : PState) b, s.pending = b → u32be b 0 = b.length → 8 ≤ b.length →
       b.length ≤ 52428800 → boxTypeAt b 4 = moovT → s.initSent = false →
       (processAll r s).log
         = s.log ++ [Act.cacheInit (s.initBuf ++ b), Act.sendInit (s.initBuf ++ b)]) :=
  ⟨fun r s b hp hsz h8 hcap hty => processAll_mdat_log r s b hp hsz h8 hcap hty,
   fun r s b hp hsz h8 hcap hty hsent => processAll_moov_log r s b hp hsz h8 hcap hty hsent⟩

theorem fragment_send_skipped_amended_witness :
    (processAll 0 mdatOnlyState).log = [Act.cacheFrag mdat8] := by
  have h := fragment_send_skipped_amended.1 0 mdatOnlyState mdat8 rfl (by decide) (by decide)
    (by decide) (by decide)
  simpa [mdatOnlyState, initialPState, freshAttempt] using h

/-- C9: within one attempt the combined `ftyp||moov` init segment is inserted
into the init-segment cache immediately before it is broadcast (the step
appends `cacheInit` then `sendInit`, in that order); and in the
`GET /camera/{id}/stream` handler the broadcast subscription is created
before the cached init-segment snapshot and before the recent-fragment
snapshot, which is itself taken after the init snapshot. -/
theorem subscriber_and_cache_order :
    (∀ r (s : PState) b, s.pending = b → u32be b 0 = b.length → 8 ≤ b.length →
       b.length ≤ 52428800 → boxTypeAt b 4 = moovT → s.initSent = false →
       (processAll r s).log
         = s.log ++ [Act.cacheInit (s.initBuf ++ b), Act.sendInit (s.initBuf ++ b)])
    ∧ streamHandlerOps.indexOf HOp.subscribe < streamHandlerOps.indexOf HOp.snapInit
    ∧ streamHandlerOps.indexOf HOp.subscribe < streamHandlerOps.indexOf HOp.snapRecent
    ∧ streamHandlerOps.indexOf HOp.snapInit < streamHandlerOps.indexOf HOp.snapRecent :=
  ⟨fun r s b hp hsz h8 hcap hty hsent => processAll_moov_log r s b hp hsz h8 hcap hty hsent,
   by decide, by decide, by decide⟩

theorem subscriber_and_cache_order_witness :
    (processAll 0 moovOnlyState).log = [Act.cacheInit moov8, Act.sendInit moov8] := by
  have h := subscriber_and_cache_order.1 0 moovOnlyState moov8 rfl (by decide) (by decide)
    (by decide) (by decide) rfl
  simpa [moovOnlyState, initialPState, freshAttempt] using h

